import Mathlib

/-
Shallow embedding of the rasengan repository (a Maelstrom-style node harness
and its gossip broadcast protocol) and verification of its specification.

Sources embedded:
  - src/src/lib.rs        : Message envelope, Event, main_loop runtime
  - src/src/bin/broadcast.rs : BroadcastNode (gossip broadcast step handler)

Modelling conventions:
  - Rust `usize` message ids are Lean `Nat` (no overflow-relevant arithmetic
    occurs in the embedded code paths).
  - `HashSet<MessageID>` is `Finset Nat`; `HashMap<NodeID, V>` is either a
    function `NodeID → Option V` (for `BroadcastNode.known`) or an
    association list (for the topology payload, whose `remove` is a lookup).
  - A Rust panic (`unwrap` / `expect` / explicit `panic!` in a handler) is
    modelled as `none` / an `Except.error`: every failure inside
    `BroadcastNode::step` is a panic, so `Option` is exact there.
  - Writes to stdout are collected as lists of messages in output order.
  - The thread-rng is modelled as an oracle `rng : Nat → Nat`, the i-th
    uniform draw used by the i-th sampling decision in a tick round.
-/

namespace Rasengan

/-- Node identifiers are opaque strings (lib.rs: `pub type NodeID = String`). -/
abbrev NodeID := String

/-- Message identifiers (lib.rs: `pub type MessageID = usize`). -/
abbrev MessageID := Nat

/-- Body of a wire message (lib.rs `struct Body`): optional own id (`msg_id`),
optional reply-correlation id (`in_reply_to`), and the payload. -/
structure Body (Payload : Type) where
  id : Option MessageID
  in_reply_to : Option MessageID
  payload : Payload
deriving DecidableEq

/-- Wire message envelope (lib.rs `struct Message`): source, destination, body. -/
structure Message (Payload : Type) where
  src : NodeID
  dst : NodeID
  body : Body Payload
deriving DecidableEq

/-- lib.rs `Message::into_reply`: swaps src/dst, sets `in_reply_to` to the
original body's own id; when a mutable id counter is supplied it is
incremented and the new value becomes the reply's own id.  The Rust
`Option<&mut MessageID>` is modelled by passing the current counter value in
and returning the updated counter value alongside the reply. -/
def Message.into_reply {P : Type} (m : Message P) (id : Option MessageID) :
    Message P × Option MessageID :=
  let newId := id.map (fun i => i + 1)
  (⟨m.dst, m.src, ⟨newId, m.body.id, m.body.payload⟩⟩, newId)

/-- lib.rs `enum Event`: an incoming message, an injected internal payload,
or shutdown. -/
inductive Event (Payload : Type) (InjectedPayload : Type) where
  | Message (m : Message Payload)
  | Injected (ip : InjectedPayload)
  | Shutdown
deriving DecidableEq

/-- lib.rs `struct Init`: the node's own id and the ids of all nodes. -/
structure Init where
  node_id : NodeID
  node_ids : List NodeID
deriving DecidableEq

/-- lib.rs `enum InitPayload`: the init handshake payload. -/
inductive InitPayload where
  | Init (init : Rasengan.Init)
  | InitOk
deriving DecidableEq

/-- broadcast.rs `enum Payload`: the broadcast protocol payload variants.
The topology `HashMap<NodeID, Vec<NodeID>>` is an association list whose
lookup takes the first matching key (a `HashMap` has unique keys). -/
inductive Payload where
  | Broadcast (message : MessageID)
  | BroadcastOk
  | Read
  | ReadOk (messages : Finset MessageID)
  | Topology (topology : List (NodeID × List NodeID))
  | TopologyOk
  | Gossip (seen : Finset MessageID)
deriving DecidableEq

/-- broadcast.rs `enum InjectedPayload`: the periodic gossip tick. -/
inductive InjectedPayload where
  | Gossip
deriving DecidableEq

/-- Events processed by the broadcast node. -/
abbrev EventB := Event Payload InjectedPayload

/-- broadcast.rs `struct BroadcastNode`: own id, reply-id counter, delivered
message set, per-neighbor knowledge map, neighbor list.  `known` is `none`
outside the map's key set. -/
structure BroadcastNode where
  node : NodeID
  id : Nat
  messages : Finset MessageID
  known : NodeID → Option (Finset MessageID)
  neighbors : List NodeID

/-- broadcast.rs `BroadcastNode::from_init` (state construction only; the
spawned timer thread is modelled at the queue level): id counter starts at 1,
delivered set empty, one empty knowledge entry per id in `node_ids`, empty
neighbor list. -/
def BroadcastNode.from_init (init : Init) : BroadcastNode where
  node := init.node_id
  id := 1
  messages := ∅
  known := fun n => if n ∈ init.node_ids then some ∅ else none
  neighbors := []

end Rasengan

namespace Rasengan

/-- Models `rng.gen_ratio(numerator, denominator)` from the tick round of
broadcast.rs: true with probability numerator/denominator; `v` is the
oracle's uniform draw for this decision. -/
def rngAccept (numerator denominator v : Nat) : Bool :=
  v % denominator < numerator

/-- The `already_known` half of the tick round's partition of
`self.messages` by membership in `known_to_neighbor` (broadcast.rs).
`messages` is the delivered set in the `HashSet`'s (unspecified) iteration
order, so the helpers take it as a list. -/
def already_known (messages : List MessageID) (K : Finset MessageID) : List MessageID :=
  messages.filter (fun m => m ∈ K)

/-- The `notify_of` half of the partition: delivered messages not known to
the neighbor. -/
def unknown_to (messages : List MessageID) (K : Finset MessageID) : List MessageID :=
  messages.filter (fun m => m ∉ K)

/-- broadcast.rs `additional_cap = (known_to_neighbor.len() as f64 * 0.1) as usize`.
Modelled as integer division by 10; for the sizes used in the theorems below
(0 and 10) this agrees exactly with the f64 computation
(`10.0_f64 * 0.1` is exactly `1.0`). -/
def additional_cap (K : Finset MessageID) : Nat :=
  K.card / 10

/-- The redundancy sample of the tick round: each element of `already_known`
is kept independently when `gen_ratio(min(additional_cap, |already_known|),
|already_known|)` fires; decision i consumes oracle draw `rng i`. -/
def sampled (ak : List MessageID) (cap : Nat) (rng : Nat → Nat) : List MessageID :=
  (ak.enum.filter (fun p => rngAccept (min cap ak.length) ak.length (rng p.1))).map Prod.snd

/-- The full `notify_of` set the tick round builds for one neighbor:
the unknown-to-N messages extended with the redundancy sample.
broadcast.rs computes this set and then DISCARDS it: no Gossip message is
constructed or sent (see the step function below). -/
def notify_of (messages : List MessageID) (K : Finset MessageID) (rng : Nat → Nat) : Finset MessageID :=
  (unknown_to messages K).toFinset ∪ (sampled (already_known messages K) (additional_cap K) rng).toFinset

/-- broadcast.rs `BroadcastNode::step`.  Returns `none` on panic, otherwise
the updated state and the list of messages written to stdout, in order.
Faithful behaviors worth noting:
  - every `Event::Message` increments the id counter via `into_reply`,
    even for payload variants that send no reply;
  - the `Injected(Gossip)` tick computes `notify_of` per neighbor and then
    drops it: it sends nothing and changes no state; it panics
    (`known.get(neighbor).unwrap()`) if a neighbor has no knowledge entry;
  - a `Gossip` message whose sender has no knowledge entry panics
    (`expect("msg from unknown node")`). -/
def BroadcastNode.step (s : BroadcastNode) (input : EventB) (rng : Nat → Nat) :
    Option (BroadcastNode × List (Message Payload)) :=
  match input with
  | Event.Shutdown => some (s, [])
  | Event.Injected InjectedPayload.Gossip =>
      if s.neighbors.all (fun n => (s.known n).isSome) then
        let _discarded := s.neighbors.map
          (fun n => notify_of (s.messages.sort (· ≤ ·)) ((s.known n).getD ∅) rng)
        some (s, [])
      else
        none
  | Event.Message m =>
      let r := m.into_reply (some s.id)
      let reply := r.1
      let s := { s with id := r.2.getD s.id }
      match reply.body.payload with
      | Payload.Broadcast message =>
          some ({ s with messages := insert message s.messages },
            [{ reply with body := { reply.body with payload := Payload.BroadcastOk } }])
      | Payload.Read =>
          some (s,
            [{ reply with body := { reply.body with payload := Payload.ReadOk s.messages } }])
      | Payload.Topology topology =>
          some ({ s with neighbors := (List.lookup s.node topology).getD [] },
            [{ reply with body := { reply.body with payload := Payload.TopologyOk } }])
      | Payload.Gossip seen =>
          match s.known reply.dst with
          | none => none
          | some k =>
              some ({ s with known := fun n => if n = reply.dst then some (k ∪ seen) else s.known n },
                [])
      | Payload.BroadcastOk => some (s, [])
      | Payload.ReadOk _ => some (s, [])
      | Payload.TopologyOk => some (s, [])

end Rasengan

namespace Rasengan

/-- lib.rs `main_loop` event loop, `for input in rx { node.step(input, &mut stdout)? }`:
drains the queue contents (the FIFO arrival order across all producers) one
event at a time, invoking `step` once per event.  Returns the final state,
the concatenated stdout output, and the number of `step` invocations, or
`none` when a step fails (which aborts the loop). -/
def runLoop (rng : Nat → Nat) : BroadcastNode → List EventB →
    Option (BroadcastNode × List (Message Payload) × Nat)
  | s, [] => some (s, [], 0)
  | s, e :: rest =>
      match s.step e rng with
      | none => none
      | some (s', out) =>
          (runLoop rng s' rest).map (fun r => (r.1, out ++ r.2.1, r.2.2 + 1))

/-- One line of input as seen by the reading thread of lib.rs `main_loop`:
the read itself may fail, the line may fail to deserialize, or it yields a
message. -/
inductive InputLine where
  | readErr
  | decodeErr
  | ok (m : Message Payload)
deriving DecidableEq

/-- Outcome of the reading thread's closure (`Result<(), anyhow::Error>`). -/
inductive ReaderResult where
  | ok
  | error (msg : String)
deriving DecidableEq

/-- The reading thread spawned by lib.rs `main_loop`.  `alive i` tells
whether the i-th send into the queue succeeds (the consumer may be gone).
Returns the list of events actually enqueued, in order, and the thread's
result value.  Faithful behaviors:
  - a read failure or a decode failure makes the closure return an error
    immediately (the `?` operator), enqueueing nothing further;
  - a failed send of a message event makes the closure return `Ok(())`
    immediately, enqueueing nothing further;
  - only after the input is exhausted is a `Shutdown` event sent,
    best-effort (`let _ = tx.send(Event::Shutdown)`). -/
def readerThread (alive : Nat → Bool) : List InputLine → Nat → List EventB × ReaderResult
  | [], i =>
      ((if alive i then [Event.Shutdown] else []), ReaderResult.ok)
  | InputLine.readErr :: _, _ =>
      ([], ReaderResult.error "Maelstrom input from STDIN could not be read")
  | InputLine.decodeErr :: _, _ =>
      ([], ReaderResult.error "Maelstrom input from STDIN could not be deserialized")
  | InputLine.ok m :: rest, i =>
      if alive i then
        let r := readerThread alive rest (i + 1)
        (Event.Message m :: r.1, r.2)
      else
        ([], ReaderResult.ok)

/-- One line written to stdout by the process: the init_ok handshake reply,
or a message produced by the step handler. -/
inductive WireOut where
  | initMsg (m : Message InitPayload)
  | payloadMsg (m : Message Payload)
deriving DecidableEq

/-- lib.rs `main_loop` end to end, for the broadcast node.
`firstLine` is the decoded first stdin line (`none` when the read or the
deserialization failed, both fatal with a context message).  `queue` is the
FIFO content of the event queue (messages enqueued by the reading thread
interleaved with injected ticks, in arrival order) and `readerResult` the
reading thread's result, which `jh.join()` propagates after the loop ends.
Output: the ordered stdout trace.  The init_ok reply is written before the
loop processes any event.  A panic inside `step` aborts the process just as
a step error would; both are collapsed into the step-failure error. -/
def main_loop_model (firstLine : Option (Message InitPayload)) (queue : List EventB)
    (readerResult : ReaderResult) (rng : Nat → Nat) : Except String (List WireOut) :=
  match firstLine with
  | none => Except.error "failed to read init message from stdin"
  | some init_msg =>
      match init_msg.body.payload with
      | InitPayload.InitOk => Except.error "first message should be init"
      | InitPayload.Init init =>
          let node := BroadcastNode.from_init init
          let reply : Message InitPayload :=
            ⟨init_msg.dst, init_msg.src, ⟨some 0, init_msg.body.id, InitPayload.InitOk⟩⟩
          match runLoop rng node queue with
          | none => Except.error "Node step function failed"
          | some r =>
              match readerResult with
              | ReaderResult.error e => Except.error e
              | ReaderResult.ok =>
                  Except.ok (WireOut.initMsg reply :: r.2.1.map WireOut.payloadMsg)

/-- C2: `into_reply` swaps source and destination, correlates the reply to
the original body's own id, and, when an id counter is supplied, increments
it and uses the new value as the reply's own id. -/
theorem into_reply_spec {P : Type} (m : Message P) (c : MessageID) :
    (m.into_reply (some c)).1.src = m.dst
    ∧ (m.into_reply (some c)).1.dst = m.src
    ∧ (m.into_reply (some c)).1.body.in_reply_to = m.body.id
    ∧ (m.into_reply (some c)).2 = some (c + 1)
    ∧ (m.into_reply (some c)).1.body.id = some (c + 1)
    ∧ (m.into_reply none).1.src = m.dst
    ∧ (m.into_reply none).1.dst = m.src
    ∧ (m.into_reply none).1.body.in_reply_to = m.body.id := by
  refine ⟨rfl, rfl, rfl, rfl, rfl, rfl, rfl, rfl⟩

/-- A node with one neighbor "n2", message 5 delivered, and "n2" known to
hold nothing: the failing input for the dissemination-round claim. -/
def c1State : BroadcastNode where
  node := "n1"
  id := 1
  messages := {5}
  known := fun n => if n = "n2" then some ∅ else none
  neighbors := ["n2"]

/-- C1 (code bug): on an Injected gossip tick the step handler emits no
message at all.  The tick round of broadcast.rs builds the notify_of set —
which here contains the unknown-by-"n2" element 5, as the second and third
conjuncts show — but then discards it: no Gossip message is constructed or
sent to any neighbor, while the claim requires one per neighbor containing
every unknown-by-N element. -/
theorem init_tick_emits_no_messages :
    (c1State.step (Event.Injected InjectedPayload.Gossip) (fun _ => 0)).map Prod.snd
      = some []
    ∧ c1State.messages = {5}
    ∧ 5 ∈ notify_of [5] ∅ (fun _ => 0) := by
  refine ⟨rfl, rfl, by decide⟩

/-- C9: inserting the same message id into the delivered set twice yields
the same set as inserting it once: after one Broadcast of `m` the delivered
set is `insert m messages`, and after a second Broadcast of the same `m` it
is still `insert m messages`; in particular two Broadcasts of 7 into a
freshly initialized node leave the delivered set `insert 7 ∅ = ⦃7⦄`. -/
theorem broadcast_insert_idempotent (s : BroadcastNode) (rng : Nat → Nat)
    (src dst : NodeID) (mid mid' irt : Option MessageID) (m : MessageID) :
    ((s.step (Event.Message ⟨src, dst, ⟨mid, irt, Payload.Broadcast m⟩⟩) rng).bind
        (fun r => r.1.step (Event.Message ⟨src, dst, ⟨mid', irt, Payload.Broadcast m⟩⟩) rng)).map
        (fun r => r.1.messages) = some (insert m s.messages)
    ∧ ((s.step (Event.Message ⟨src, dst, ⟨mid, irt, Payload.Broadcast m⟩⟩) rng).map
        (fun r => r.1.messages)) = some (insert m s.messages)
    ∧ (((BroadcastNode.from_init ⟨"n1", ["n1", "n2"]⟩).step
          (Event.Message ⟨"c1", "n1", ⟨some 1, none, Payload.Broadcast 7⟩⟩) rng).bind
        (fun r => r.1.step (Event.Message ⟨"c1", "n1", ⟨some 2, none, Payload.Broadcast 7⟩⟩) rng)).map
        (fun r => r.1.messages) = some (insert 7 ∅) := by
  refine ⟨?_, rfl, ?_⟩
  · have h : ((s.step (Event.Message ⟨src, dst, ⟨mid, irt, Payload.Broadcast m⟩⟩) rng).bind
        (fun r => r.1.step (Event.Message ⟨src, dst, ⟨mid', irt, Payload.Broadcast m⟩⟩) rng)).map
        (fun r => r.1.messages) = some (insert m (insert m s.messages)) := rfl
    rw [h, Finset.insert_idem]
  · have h : (((BroadcastNode.from_init ⟨"n1", ["n1", "n2"]⟩).step
          (Event.Message ⟨"c1", "n1", ⟨some 1, none, Payload.Broadcast 7⟩⟩) rng).bind
        (fun r => r.1.step (Event.Message ⟨"c1", "n1", ⟨some 2, none, Payload.Broadcast 7⟩⟩) rng)).map
        (fun r => r.1.messages) = some (insert 7 (insert 7 ∅)) := rfl
    rw [h, Finset.insert_idem]

/-- C6: a Topology message makes the neighbor list the mapping's entry for
the node's own id (empty when absent) and is acknowledged with a TopologyOk
reply; a freshly constructed node has an empty neighbor list; and with an
empty neighbor list the dissemination round sends nothing and changes no
state. -/
theorem topology_step_spec (s : BroadcastNode) (rng : Nat → Nat) (src dst : NodeID)
    (mid irt : Option MessageID) (top : List (NodeID × List NodeID)) :
    ((s.step (Event.Message ⟨src, dst, ⟨mid, irt, Payload.Topology top⟩⟩) rng).map
        (fun r => r.1.neighbors)) = some ((List.lookup s.node top).getD [])
    ∧ ((s.step (Event.Message ⟨src, dst, ⟨mid, irt, Payload.Topology top⟩⟩) rng).map
        Prod.snd) = some [⟨dst, src, ⟨some (s.id + 1), mid, Payload.TopologyOk⟩⟩]
    ∧ (∀ init : Init, (BroadcastNode.from_init init).neighbors = [])
    ∧ (s.neighbors = [] → s.step (Event.Injected InjectedPayload.Gossip) rng = some (s, [])) := by
  refine ⟨rfl, rfl, fun _ => rfl, fun h => ?_⟩
  simp [BroadcastNode.step, h]

/-- Witness for the topology theorem: the freshly initialized node has no
neighbors, and its dissemination round is a no-op. -/
theorem topology_step_spec_witness :
    (BroadcastNode.from_init ⟨"n1", ["n1", "n2"]⟩).neighbors = []
    ∧ (BroadcastNode.from_init ⟨"n1", ["n1", "n2"]⟩).step
        (Event.Injected InjectedPayload.Gossip) (fun _ => 0)
      = some (BroadcastNode.from_init ⟨"n1", ["n1", "n2"]⟩, []) :=
  ⟨rfl, (topology_step_spec (BroadcastNode.from_init ⟨"n1", ["n1", "n2"]⟩)
      (fun _ => 0) "c1" "n1" none none []).2.2.2 rfl⟩

/-- Helper: a single successful step never removes an element from the
delivered set or from any knowledge entry. -/
theorem step_mono (s : BroadcastNode) (e : EventB) (rng : Nat → Nat)
    (s' : BroadcastNode) (out : List (Message Payload))
    (h : s.step e rng = some (s', out)) :
    s.messages ⊆ s'.messages
    ∧ ∀ nd A, s.known nd = some A → ∃ B, s'.known nd = some B ∧ A ⊆ B := by
  cases e with
  | Shutdown =>
      simp only [BroadcastNode.step, Option.some.injEq, Prod.mk.injEq] at h
      obtain ⟨rfl, -⟩ := h
      exact ⟨Finset.Subset.refl _, fun nd A hA => ⟨A, hA, Finset.Subset.refl _⟩⟩
  | Injected ip =>
      cases ip
      simp only [BroadcastNode.step] at h
      split at h
      · simp only [Option.some.injEq, Prod.mk.injEq] at h
        obtain ⟨rfl, -⟩ := h
        exact ⟨Finset.Subset.refl _, fun nd A hA => ⟨A, hA, Finset.Subset.refl _⟩⟩
      · exact absurd h (by simp)
  | Message m =>
      obtain ⟨msrc, mdst, mid, irt, p⟩ := m
      cases p with
      | Broadcast mm =>
          simp only [BroadcastNode.step, Message.into_reply, Option.some.injEq,
            Prod.mk.injEq] at h
          obtain ⟨rfl, -⟩ := h
          exact ⟨Finset.subset_insert _ _, fun nd A hA => ⟨A, hA, Finset.Subset.refl _⟩⟩
      | BroadcastOk =>
          simp only [BroadcastNode.step, Message.into_reply, Option.some.injEq,
            Prod.mk.injEq] at h
          obtain ⟨rfl, -⟩ := h
          exact ⟨Finset.Subset.refl _, fun nd A hA => ⟨A, hA, Finset.Subset.refl _⟩⟩
      | Read =>
          simp only [BroadcastNode.step, Message.into_reply, Option.some.injEq,
            Prod.mk.injEq] at h
          obtain ⟨rfl, -⟩ := h
          exact ⟨Finset.Subset.refl _, fun nd A hA => ⟨A, hA, Finset.Subset.refl _⟩⟩
      | ReadOk ms =>
          simp only [BroadcastNode.step, Message.into_reply, Option.some.injEq,
            Prod.mk.injEq] at h
          obtain ⟨rfl, -⟩ := h
          exact ⟨Finset.Subset.refl _, fun nd A hA => ⟨A, hA, Finset.Subset.refl _⟩⟩
      | Topology top =>
          simp only [BroadcastNode.step, Message.into_reply, Option.some.injEq,
            Prod.mk.injEq] at h
          obtain ⟨rfl, -⟩ := h
          exact ⟨Finset.Subset.refl _, fun nd A hA => ⟨A, hA, Finset.Subset.refl _⟩⟩
      | TopologyOk =>
          simp only [BroadcastNode.step, Message.into_reply, Option.some.injEq,
            Prod.mk.injEq] at h
          obtain ⟨rfl, -⟩ := h
          exact ⟨Finset.Subset.refl _, fun nd A hA => ⟨A, hA, Finset.Subset.refl _⟩⟩
      | Gossip seen =>
          simp only [BroadcastNode.step, Message.into_reply] at h
          split at h
          · exact absurd h (by simp)
          case _ k hk =>
            simp only [Option.some.injEq, Prod.mk.injEq] at h
            obtain ⟨rfl, -⟩ := h
            refine ⟨Finset.Subset.refl _, fun nd A hA => ?_⟩
            by_cases hnd : nd = msrc
            · subst hnd
              rw [hA] at hk
              injection hk with hk
              subst hk
              exact ⟨A ∪ seen, by simp, Finset.subset_union_left⟩
            · exact ⟨A, by simpa [hnd] using hA, Finset.Subset.refl _⟩

/-- C4: across any sequence of processed events, the delivered-message set
and every per-neighbor knowledge set only grow: the values before the run
are subsets of the values after it. -/
theorem step_sets_monotone (s : BroadcastNode) (events : List EventB) (rng : Nat → Nat)
    (r : BroadcastNode × List (Message Payload) × Nat)
    (h : runLoop rng s events = some r) :
    s.messages ⊆ r.1.messages
    ∧ ∀ nd A B, s.known nd = some A → r.1.known nd = some B → A ⊆ B := by
  induction events generalizing s r with
  | nil =>
      simp only [runLoop, Option.some.injEq] at h
      subst h
      exact ⟨Finset.Subset.refl _, fun nd A B hA hB => by
        rw [hA] at hB; injection hB with hB; subst hB; exact Finset.Subset.refl _⟩
  | cons e rest ih =>
      simp only [runLoop] at h
      split at h
      · exact absurd h (by simp)
      case _ s' out hstep =>
        cases hrest : runLoop rng s' rest with
        | none => rw [hrest] at h; exact absurd h (by simp)
        | some r' =>
            rw [hrest] at h
            simp only [Option.map_some', Option.some.injEq] at h
            subst h
            obtain ⟨hm1, hk1⟩ := step_mono s e rng s' out hstep
            obtain ⟨hm2, hk2⟩ := ih s' r' hrest
            refine ⟨hm1.trans hm2, fun nd A B hA hB => ?_⟩
            obtain ⟨C, hC, hAC⟩ := hk1 nd A hA
            exact hAC.trans (hk2 nd C B hC hB)

/-- Initial node for the monotonicity witness. -/
def c4Start : BroadcastNode := BroadcastNode.from_init ⟨"n1", ["n1", "n2"]⟩

/-- Event list for the monotonicity witness: one Broadcast of 7. -/
def c4Events : List EventB :=
  [Event.Message ⟨"c1", "n1", ⟨some 1, none, Payload.Broadcast 7⟩⟩]

/-- Result of running the monotonicity witness events. -/
def c4Result : BroadcastNode × List (Message Payload) × Nat :=
  ({ c4Start with id := 2, messages := insert 7 ∅ },
   [⟨"n1", "c1", ⟨some 2, some 1, Payload.BroadcastOk⟩⟩], 1)

/-- Witness for the monotonicity theorem at a concrete run. -/
theorem step_sets_monotone_witness :
    runLoop (fun _ => 0) c4Start c4Events = some c4Result
    ∧ c4Start.messages ⊆ c4Result.1.messages
    ∧ (∅ : Finset MessageID) ⊆ ∅ :=
  ⟨rfl,
   (step_sets_monotone c4Start c4Events (fun _ => 0) c4Result rfl).1,
   (step_sets_monotone c4Start c4Events (fun _ => 0) c4Result rfl).2 "n1" ∅ ∅ rfl rfl⟩

/-- C10: the knowledge map of a freshly constructed node has an empty entry
exactly for the ids listed in the init message's node_ids (and no entry for
any other id); a Gossip message whose sender has no knowledge entry makes
the step handler panic (modelled as `none`) rather than return normally;
and for a sender with an entry the update finds it and merges the seen set
into it, sending nothing. -/
theorem known_map_init_and_gossip_panic (init : Init) (nd : NodeID)
    (s : BroadcastNode) (rng : Nat → Nat) (src dst : NodeID)
    (mid irt : Option MessageID) (seen : Finset MessageID) :
    ((BroadcastNode.from_init init).known nd = some ∅ ↔ nd ∈ init.node_ids)
    ∧ (nd ∉ init.node_ids → (BroadcastNode.from_init init).known nd = none)
    ∧ (s.known src = none →
        s.step (Event.Message ⟨src, dst, ⟨mid, irt, Payload.Gossip seen⟩⟩) rng = none)
    ∧ (∀ K, s.known src = some K →
        ((s.step (Event.Message ⟨src, dst, ⟨mid, irt, Payload.Gossip seen⟩⟩) rng).map
          (fun r => (r.1.known src, r.2))) = some (some (K ∪ seen), [])) := by
  refine ⟨?_, ?_, ?_, ?_⟩
  · by_cases hmem : nd ∈ init.node_ids <;> simp [BroadcastNode.from_init, hmem]
  · intro hmem
    simp [BroadcastNode.from_init, hmem]
  · intro hnone
    simp [BroadcastNode.step, Message.into_reply, hnone]
  · intro K hK
    simp [BroadcastNode.step, Message.into_reply, hK]

/-- Witness for the knowledge-map theorem: in a node initialized with ids
n1 and n2, the id x0 has no entry, a Gossip from x0 panics, and a Gossip
from n2 merges into n2's (empty) entry. -/
theorem known_map_init_and_gossip_panic_witness :
    (BroadcastNode.from_init ⟨"n1", ["n1", "n2"]⟩).known "x0" = none
    ∧ (BroadcastNode.from_init ⟨"n1", ["n1", "n2"]⟩).step
        (Event.Message ⟨"x0", "n1", ⟨none, none, Payload.Gossip {5}⟩⟩) (fun _ => 0) = none
    ∧ ((BroadcastNode.from_init ⟨"n1", ["n1", "n2"]⟩).step
        (Event.Message ⟨"n2", "n1", ⟨none, none, Payload.Gossip {5}⟩⟩) (fun _ => 0)).map
        (fun r => (r.1.known "n2", r.2)) = some (some (∅ ∪ {5}), []) :=
  ⟨(known_map_init_and_gossip_panic ⟨"n1", ["n1", "n2"]⟩ "x0"
      (BroadcastNode.from_init ⟨"n1", ["n1", "n2"]⟩) (fun _ => 0) "x0" "n1"
      none none {5}).2.1 (by decide),
   (known_map_init_and_gossip_panic ⟨"n1", ["n1", "n2"]⟩ "x0"
      (BroadcastNode.from_init ⟨"n1", ["n1", "n2"]⟩) (fun _ => 0) "x0" "n1"
      none none {5}).2.2.1 rfl,
   (known_map_init_and_gossip_panic ⟨"n1", ["n1", "n2"]⟩ "n2"
      (BroadcastNode.from_init ⟨"n1", ["n1", "n2"]⟩) (fun _ => 0) "n2" "n1"
      none none {5}).2.2.2 ∅ rfl⟩

/-- C3: when the first line decodes as an init message, the very first line
written to stdout is the init_ok reply addressed back to the initializer
(source and destination swapped) with own id 0 and reply-correlation id
equal to the init message's own id; a first line that does not decode, or
that decodes to the non-init variant, is fatal. -/
theorem main_loop_init_handshake (im : Message InitPayload) (i : Init)
    (q : List EventB) (rr : ReaderResult) (rng : Nat → Nat) :
    (im.body.payload = InitPayload.Init i →
      ∀ outs, main_loop_model (some im) q rr rng = Except.ok outs →
        outs.head? = some (WireOut.initMsg
          ⟨im.dst, im.src, ⟨some 0, im.body.id, InitPayload.InitOk⟩⟩))
    ∧ (im.body.payload = InitPayload.InitOk →
        main_loop_model (some im) q rr rng = Except.error "first message should be init")
    ∧ main_loop_model none q rr rng
        = Except.error "failed to read init message from stdin" := by
  obtain ⟨msrc, mdst, mid, irt, p⟩ := im
  refine ⟨?_, ?_, rfl⟩
  · intro h outs hok
    cases p with
    | InitOk => exact absurd h (by simp)
    | Init i' =>
        injection h with h'
        subst h'
        simp only [main_loop_model] at hok
        cases hrun : runLoop rng (BroadcastNode.from_init i') q with
        | none => rw [hrun] at hok; exact Except.noConfusion hok
        | some r =>
            rw [hrun] at hok
            cases rr with
            | error e => exact Except.noConfusion hok
            | ok =>
                injection hok with hok
                rw [← hok]
                rfl
  · intro h
    cases p with
    | Init i' => exact absurd h (by simp)
    | InitOk => rfl

/-- First line for the handshake witness: an init message from c0 to n1
with own id 1. -/
def c3InitMsg : Message InitPayload :=
  ⟨"c0", "n1", ⟨some 1, none, InitPayload.Init ⟨"n1", ["n1", "n2"]⟩⟩⟩

/-- Witness for the handshake theorem: a concrete run with an empty queue
writes exactly the init_ok reply first, and an InitOk first line is fatal. -/
theorem main_loop_init_handshake_witness :
    main_loop_model (some c3InitMsg) [] ReaderResult.ok (fun _ => 0)
      = Except.ok [WireOut.initMsg ⟨"n1", "c0", ⟨some 0, some 1, InitPayload.InitOk⟩⟩]
    ∧ [WireOut.initMsg ⟨"n1", "c0", ⟨some 0, some 1, InitPayload.InitOk⟩⟩].head?
      = some (WireOut.initMsg ⟨"n1", "c0", ⟨some 0, some 1, InitPayload.InitOk⟩⟩)
    ∧ main_loop_model (some ⟨"c0", "n1", ⟨some 1, none, InitPayload.InitOk⟩⟩) []
        ReaderResult.ok (fun _ => 0) = Except.error "first message should be init" :=
  ⟨rfl,
   (main_loop_init_handshake c3InitMsg ⟨"n1", ["n1", "n2"]⟩ [] ReaderResult.ok
      (fun _ => 0)).1 rfl
     [WireOut.initMsg ⟨"n1", "c0", ⟨some 0, some 1, InitPayload.InitOk⟩⟩] rfl,
   (main_loop_init_handshake ⟨"c0", "n1", ⟨some 1, none, InitPayload.InitOk⟩⟩
      ⟨"n1", ["n1", "n2"]⟩ [] ReaderResult.ok (fun _ => 0)).2.1 rfl⟩

/-- Helper: the unknown-by-N part of the payload contributes nothing to the
intersection with the knowledge set. -/
theorem unknown_to_inter_empty (messages : List MessageID) (K : Finset MessageID) :
    (unknown_to messages K).toFinset ∩ K = ∅ := by
  ext x
  simp [unknown_to, List.mem_filter]

/-- C5 counterexample: delivered messages 1 and 2 are both already known to
the neighbor, whose knowledge set has 10 elements, so additional_cap = 1 and
the claimed bound is ceil(10 × 0.1) = (10 + 9) / 10 = 1.  With an rng
outcome that accepts every sampling decision, BOTH already-known items land
in the computed payload: 2 of them, exceeding the claimed bound of 1.  (The
sampling is an independent per-item coin with ratio
min(cap, |already_known|) / |already_known|, not a hard cap on the count.) -/
theorem redundancy_bound_counterexample :
    ((notify_of [1, 2] {1, 2, 3, 4, 5, 6, 7, 8, 9, 10} (fun _ => 0))
        ∩ ({1, 2, 3, 4, 5, 6, 7, 8, 9, 10} : Finset MessageID)).card = 2
    ∧ ({1, 2, 3, 4, 5, 6, 7, 8, 9, 10} : Finset MessageID).card = 10
    ∧ additional_cap {1, 2, 3, 4, 5, 6, 7, 8, 9, 10} = 1
    ∧ ¬(2 ≤ (10 + 9) / 10) := by
  refine ⟨by decide, by decide, by decide, by decide⟩

/-- C5 amended: the number of already-known items in the computed payload is
bounded by the number of already-known items (each is included or not by an
independent rng decision with ratio min(cap, n) / n), it is 0 when the
neighbor's knowledge set is empty, and it is 0 whenever additional_cap
(the truncation of |knowledge| × 0.1) is 0; but no hard per-round cap of
ceil(|knowledge| × 0.1) is enforced (see the counterexample). -/
theorem redundancy_sampling_amended (messages : List MessageID) (K : Finset MessageID)
    (rng : Nat → Nat) :
    ((notify_of messages K rng) ∩ K).card ≤ (already_known messages K).length
    ∧ (K = ∅ → ((notify_of messages K rng) ∩ K).card = 0)
    ∧ (additional_cap K = 0 → ((notify_of messages K rng) ∩ K).card = 0) := by
  refine ⟨?_, ?_, ?_⟩
  · have hsub : notify_of messages K rng ∩ K
        ⊆ (sampled (already_known messages K) (additional_cap K) rng).toFinset := by
      rw [notify_of, Finset.union_inter_distrib_right,
        unknown_to_inter_empty, Finset.empty_union]
      exact Finset.inter_subset_left
    refine (Finset.card_le_card hsub).trans ((List.toFinset_card_le _).trans ?_)
    rw [sampled, List.length_map]
    exact (List.length_filter_le _ _).trans (le_of_eq (List.enum_length))
  · intro hK
    subst hK
    simp
  · intro hcap
    have hS : sampled (already_known messages K) (additional_cap K) rng = [] := by
      simp [sampled, hcap, rngAccept]
    have hI : notify_of messages K rng ∩ K = ∅ := by
      rw [notify_of, hS, Finset.union_inter_distrib_right, unknown_to_inter_empty]
      simp
    rw [hI, Finset.card_empty]

/-- Witness for the amended redundancy theorem: empty knowledge set gives a
zero count, and the cap of an empty knowledge set is 0. -/
theorem redundancy_sampling_amended_witness :
    ((notify_of [3] ∅ (fun _ => 0)) ∩ (∅ : Finset MessageID)).card = 0
    ∧ additional_cap (∅ : Finset MessageID) = 0 :=
  ⟨(redundancy_sampling_amended [3] ∅ (fun _ => 0)).2.1 rfl, rfl⟩

/-- C7 counterexample: on a decode failure the reading thread terminates
with an error having enqueued NOTHING — in particular no Shutdown event —
even though the consumer is fully alive; the claim says a Shutdown is
enqueued best-effort on decode failure. -/
theorem reader_failure_counterexample :
    readerThread (fun _ => true) [InputLine.decodeErr] 0
      = ([], ReaderResult.error "Maelstrom input from STDIN could not be deserialized")
    ∧ Event.Shutdown ∉ (readerThread (fun _ => true) [InputLine.decodeErr] 0).1 := by
  refine ⟨rfl, by decide⟩

/-- C7 amended: on a read failure or a decode failure the reading thread
terminates with an error and enqueues nothing (no Shutdown); when its
enqueue fails because the consumer is gone it terminates cleanly and
enqueues nothing further (no Shutdown); a Shutdown event is enqueued
(best-effort) only on reaching the end of input, in which case the thread's
result is success. -/
theorem reader_thread_amended (alive : Nat → Bool) (i : Nat) (rest : List InputLine)
    (m : Message Payload) (lines : List InputLine) :
    readerThread alive (InputLine.readErr :: rest) i
      = ([], ReaderResult.error "Maelstrom input from STDIN could not be read")
    ∧ readerThread alive (InputLine.decodeErr :: rest) i
      = ([], ReaderResult.error "Maelstrom input from STDIN could not be deserialized")
    ∧ (alive i = false →
        readerThread alive (InputLine.ok m :: rest) i = ([], ReaderResult.ok))
    ∧ (Event.Shutdown ∈ (readerThread alive lines i).1 →
        (readerThread alive lines i).2 = ReaderResult.ok) := by
  refine ⟨rfl, rfl, fun h => by simp [readerThread, h], ?_⟩
  induction lines generalizing i with
  | nil => intro _; rfl
  | cons l tl ih =>
      cases l with
      | readErr => intro hmem; simp [readerThread] at hmem
      | decodeErr => intro hmem; simp [readerThread] at hmem
      | ok m' =>
          intro hmem
          by_cases ha : alive i
          · simp only [readerThread, ha, if_true, List.mem_cons] at hmem
            rcases hmem with hmem | hmem
            · exact absurd hmem (by simp)
            · simpa [readerThread, ha] using ih (i + 1) hmem
          · simp [readerThread, ha] at hmem

/-- A payload message used by the reader-thread witness. -/
def c7Msg : Message Payload := ⟨"c1", "n1", ⟨some 1, none, Payload.Read⟩⟩

/-- Witness for the amended reader-thread theorem: a dead consumer makes the
thread exit cleanly without enqueueing, and at end of input, where Shutdown
is enqueued, the thread's result is success. -/
theorem reader_thread_amended_witness :
    readerThread (fun _ => false) [InputLine.ok c7Msg] 0 = ([], ReaderResult.ok)
    ∧ (readerThread (fun _ => true) [] 0).2 = ReaderResult.ok :=
  ⟨(reader_thread_amended (fun _ => false) 0 [] c7Msg []).2.2.1 rfl,
   (reader_thread_amended (fun _ => true) 0 [] c7Msg []).2.2.2 (by decide)⟩

/-- Starting node for the event-loop counterexample. -/
def c8Start : BroadcastNode := BroadcastNode.from_init ⟨"n1", ["n1", "n2"]⟩

/-- A Broadcast event placed in the queue after a Shutdown event. -/
def c8Event : EventB := Event.Message ⟨"c1", "n1", ⟨some 1, none, Payload.Broadcast 7⟩⟩

/-- C8 counterexample: with the queue holding a Shutdown event followed by a
Broadcast of 7, the loop invokes step twice and the final delivered set has
one element — the Broadcast AFTER the Shutdown is still processed.  If the
loop terminated when a Shutdown event is observed, as the claim states, step
would run once and the delivered set would stay empty. -/
theorem shutdown_event_counterexample :
    (runLoop (fun _ => 0) c8Start [Event.Shutdown, c8Event]).map
      (fun r => (r.2.2, r.1.messages.card)) = some (2, 1) := by
  decide

/-- C8 amended: the loop invokes step exactly once per queued event and
terminates exactly when the queue is exhausted (a Shutdown event is passed
to step like any other event and does not stop the loop); after the loop
ends, the joined reading thread's recorded error is propagated. -/
theorem event_loop_amended (s : BroadcastNode) (q : List EventB) (rng : Nat → Nat)
    (r : BroadcastNode × List (Message Payload) × Nat)
    (im : Message InitPayload) (i : Init) (e : String) :
    (runLoop rng s q = some r → r.2.2 = q.length)
    ∧ runLoop rng s (Event.Shutdown :: q)
        = (runLoop rng s q).map (fun r' => (r'.1, r'.2.1, r'.2.2 + 1))
    ∧ (im.body.payload = InitPayload.Init i →
        (∃ r', runLoop rng (BroadcastNode.from_init i) q = some r') →
        main_loop_model (some im) q (ReaderResult.error e) rng = Except.error e) := by
  refine ⟨?_, ?_, ?_⟩
  · induction q generalizing s r with
    | nil =>
        intro h
        simp only [runLoop, Option.some.injEq] at h
        subst h
        rfl
    | cons ev tl ih =>
        intro h
        simp only [runLoop] at h
        split at h
        · exact absurd h (by simp)
        case _ s' out hstep =>
          cases htl : runLoop rng s' tl with
          | none => rw [htl] at h; exact absurd h (by simp)
          | some r' =>
              rw [htl] at h
              simp only [Option.map_some', Option.some.injEq] at h
              subst h
              simp [ih s' r' htl]
  · simp [runLoop, BroadcastNode.step]
  · rintro h ⟨r', hr'⟩
    obtain ⟨msrc, mdst, mid, irt, p⟩ := im
    cases p with
    | InitOk => exact absurd h (by simp)
    | Init i' =>
        injection h with h'
        subst h'
        simp only [main_loop_model]
        rw [hr']

/-- Result of the event-loop witness run: two step invocations. -/
def c8Result : BroadcastNode × List (Message Payload) × Nat :=
  ({ c8Start with id := 2, messages := insert 7 ∅ },
   [⟨"n1", "c1", ⟨some 2, some 1, Payload.BroadcastOk⟩⟩], 2)

/-- Witness for the amended event-loop theorem: the concrete two-event run
invokes step twice (once per event), and a reader error is propagated after
a successful loop. -/
theorem event_loop_amended_witness :
    c8Result.2.2 = [Event.Shutdown, c8Event].length
    ∧ main_loop_model (some c3InitMsg) [] (ReaderResult.error "boom") (fun _ => 0)
        = Except.error "boom" :=
  ⟨(event_loop_amended c8Start [Event.Shutdown, c8Event] (fun _ => 0) c8Result
      c3InitMsg ⟨"n1", ["n1", "n2"]⟩ "boom").1 rfl,
   (event_loop_amended c8Start [] (fun _ => 0) c8Result c3InitMsg
      ⟨"n1", ["n1", "n2"]⟩ "boom").2.2 rfl
     ⟨(BroadcastNode.from_init ⟨"n1", ["n1", "n2"]⟩, [], 0), rfl⟩⟩

end Rasengan
